import Mathlib

/-!
Shallow embedding of three React hooks of the MaatikShemua frontend:

* `useAutoSave`       (src/frontend/src/hooks/useAutoSave.ts)
* `useWebSocket`      (src/frontend/src/hooks/useWebSocket.ts)
* `useRangeSelection` (src/frontend/src/hooks/useRangeSelection.ts)

Stateful hook code is embedded as explicit state-passing functions; the
outcome of an awaited remote call is passed in as a parameter; timers are
modelled as a pending-payload cell plus explicit "schedule"/"flush" events;
`Date` timestamps are modelled abstractly as natural numbers.
-/

namespace MaatikShemua

/-! ## Data model (src/frontend/src/types/index.ts) -/

/-- `TranscriptionLine` from `types/index.ts`.  Optional fields become
`Option`; the floating-point `confidence` is modelled as an integer (the
auto-save code never computes with it, it only stores and forwards it). -/
structure TranscriptionLine where
  id : Nat
  line_number : Nat
  display_order : Option Nat := none
  text : Option String := none
  confidence : Option Int := none
  notes : Option String := none
deriving DecidableEq, Repr

/-- Task lifecycle status, the string union
`'pending' | 'running' | 'completed' | 'failed'` of `types/index.ts`. -/
inductive TaskStatus where
  | pending
  | running
  | completed
  | failed
deriving DecidableEq, Repr

/-- A task status is terminal when it is `completed` or `failed`;
this is the disjunction the handlers in `useWebSocket.ts` test literally. -/
def TaskStatus.isTerminal : TaskStatus → Bool
  | .completed => true
  | .failed => true
  | _ => false

/-- `Task` from `types/index.ts` (the fields the hooks read or store;
`progress`/`result` are carried opaquely by the code and are omitted,
`error` keeps its message). -/
structure Task where
  task_id : String
  type : String
  status : TaskStatus
  error : Option String := none
  created_at : String := ""
  updated_at : String := ""
deriving DecidableEq, Repr

/-! ## AutoSaveManager (src/frontend/src/hooks/useAutoSave.ts)

The hook state consists of React state cells (`lastSaved`, `isSaving`,
`hasUnsavedChanges`, `error`), the localStorage slot under
`maatik_backup_<pageId>` (one fixed key per hook instance), and the lodash
debounce timer, modelled as the payload it would deliver when it fires. -/

/-- The JSON object `{lines, timestamp}` that `saveToLocalStorage` writes
under the backup key (timestamps abstracted to `Nat`). -/
structure BackupRecord where
  lines : List TranscriptionLine
  timestamp : Nat
deriving DecidableEq, Repr

/-- Raw content of the localStorage slot: either a well-formed serialized
backup record, or bytes `JSON.parse` rejects (the `catch` in `getBackup`). -/
inductive StoredVal where
  | record (r : BackupRecord)
  | corrupt
deriving DecidableEq, Repr

/-- State of one `useAutoSave` instance. `pending` is the lodash debounce
timer: `some p` when a trailing-edge invocation with argument `p` is
scheduled, `none` when no timer is pending. -/
structure AutoSaveState where
  slot : Option StoredVal
  hasUnsavedChanges : Bool
  isSaving : Bool
  error : Option String
  lastSaved : Option Nat
  pending : Option (List TranscriptionLine)
deriving DecidableEq, Repr

/-- Hook state right after mount. -/
def initAutoSave : AutoSaveState :=
  { slot := none, hasUnsavedChanges := false, isSaving := false
    error := none, lastSaved := none, pending := none }

/-- Outcome of the awaited `onSave(lines)` promise: fulfilled, rejected
with an `Error` (whose `.message` is kept), or rejected with a non-Error
value (the code then uses the literal string "Save failed"). -/
inductive RemoteOutcome where
  | ok
  | errObj (msg : String)
  | nonErrorThrow
deriving DecidableEq, Repr

/-- `saveToLocalStorage(lines)`: `localStorage.setItem(backupKey,
JSON.stringify({lines, timestamp}))` then `setHasUnsavedChanges(true)`. -/
def saveToLocalStorage (lines : List TranscriptionLine) (now : Nat)
    (s : AutoSaveState) : AutoSaveState :=
  { s with slot := some (.record ⟨lines, now⟩), hasUnsavedChanges := true }

/-- `saveToServer(lines)`: `setIsSaving(true); setError(null);
try { await onSave(lines); localStorage.removeItem(backupKey);
setLastSaved(new Date()); setHasUnsavedChanges(false); }
catch (err) { setError(err instanceof Error ? err.message : 'Save failed'); }
finally { setIsSaving(false); }`.

The returned pair is (new state, rejection propagated to the caller).  The
`catch` clause handles every rejection of `onSave`, so the async function
itself always fulfills: the second component is `none` in every branch. -/
def saveToServer (lines : List TranscriptionLine) (outcome : RemoteOutcome)
    (now : Nat) (s : AutoSaveState) : AutoSaveState × Option String :=
  let s1 := { s with isSaving := true, error := none }
  match outcome with
  | .ok =>
      ({ s1 with slot := none, lastSaved := some now,
                 hasUnsavedChanges := false, isSaving := false }, none)
  | .errObj msg =>
      ({ s1 with error := some msg, isSaving := false }, none)
  | .nonErrorThrow =>
      ({ s1 with error := some "Save failed", isSaving := false }, none)

/-- Observable side effects of the save path, for trace statements:
the localStorage backup write, the (re)scheduling of the debounced remote
write, and the network request the debounce fires. -/
inductive SaveOp where
  | localWrite (lines : List TranscriptionLine)
  | schedule (lines : List TranscriptionLine)
  | remoteWrite (lines : List TranscriptionLine)
deriving DecidableEq, Repr

def SaveOp.isLocalWrite : SaveOp → Bool
  | .localWrite _ => true
  | _ => false

def SaveOp.isRemoteWrite : SaveOp → Bool
  | .remoteWrite _ => true
  | _ => false

/-- `save(lines)`: `saveToLocalStorage(lines); debouncedSave(lines);`.
Calling the lodash-debounced function restarts its timer and records the
latest arguments, which the trailing-edge invocation will use.  The emitted
trace shows the order of the two statements in the body. -/
def save (lines : List TranscriptionLine) (now : Nat)
    (s : AutoSaveState) : AutoSaveState × List SaveOp :=
  let s1 := saveToLocalStorage lines now s
  let s2 := { s1 with pending := some lines }
  (s2, [.localWrite lines, .schedule lines])

/-- The debounce timer firing: lodash invokes
`(lines) => saveToServerRef.current(lines)` with the last-seen arguments
and clears the timer.  A no-op when no invocation is pending. -/
def flushDebounce (outcome : RemoteOutcome) (now : Nat)
    (s : AutoSaveState) : AutoSaveState × List SaveOp :=
  match s.pending with
  | some lines =>
      ((saveToServer lines outcome now { s with pending := none }).1,
        [.remoteWrite lines])
  | none => (s, [])

/-- `forceSave(lines)`: `debouncedSave.cancel(); await saveToServer(lines);`.
`cancel()` discards the pending timer; the rejection component is the one
`saveToServer` propagates. -/
def forceSave (lines : List TranscriptionLine) (outcome : RemoteOutcome)
    (now : Nat) (s : AutoSaveState) : AutoSaveState × Option String :=
  saveToServer lines outcome now { s with pending := none }

/-- `getBackup()`: read the slot; `JSON.parse` inside `try`, returning
`null` both when the slot is empty and when parsing throws. -/
def getBackup (s : AutoSaveState) : Option BackupRecord :=
  match s.slot with
  | some (.record r) => some r
  | some .corrupt => none
  | none => none

/-- `clearBackup()`: `localStorage.removeItem(backupKey)`. -/
def clearBackup (s : AutoSaveState) : AutoSaveState :=
  { s with slot := none }

/-- A burst of `save` calls inside one debounce window: each call's state
update and trace, concatenated in call order.  No timer fires in between
(that is what "inside one window" means). -/
def saveBurst (payloads : List (List TranscriptionLine)) (now : Nat)
    (s : AutoSaveState) : AutoSaveState × List SaveOp :=
  match payloads with
  | [] => (s, [])
  | p :: rest =>
      let r1 := save p now s
      let r2 := saveBurst rest now r1.1
      (r2.1, r1.2 ++ r2.2)

/-- A full debounce window: the burst of `save` calls followed by the single
trailing-edge timer expiry. -/
def saveWindow (payloads : List (List TranscriptionLine))
    (outcome : RemoteOutcome) (now : Nat)
    (s : AutoSaveState) : AutoSaveState × List SaveOp :=
  let r1 := saveBurst payloads now s
  let r2 := flushDebounce outcome now r1.1
  (r2.1, r1.2 ++ r2.2)

/-! ## useWebSocket (src/frontend/src/hooks/useWebSocket.ts)

State: the `status` React cell, the `taskData` React cell, the
`taskStatusRef` side-channel ref (a status string, read synchronously by
the close handler), and the `attemptsRef` counter.  Events delivered to one
socket's handlers are open, message, close; a message event carries either
a payload `JSON.parse` accepts as a `Task` snapshot or one it rejects. -/

/-- The `'connecting' | 'open' | 'closed'` union of `useWebSocket`. -/
inductive ConnStatus where
  | connecting
  | open
  | closed
deriving DecidableEq, Repr

/-- State of one `useWebSocket` instance. -/
structure WSState where
  status : ConnStatus
  taskData : Option Task
  taskStatusRef : Option TaskStatus
  attempts : Nat
deriving DecidableEq, Repr

/-- Hook state right after `connect()` ran `setStatus('connecting')` for a
fresh task: no snapshot seen yet, counter 0. -/
def initWS : WSState :=
  { status := .connecting, taskData := none, taskStatusRef := none
    attempts := 0 }

/-- `options.reconnectAttempts ?? 5`. -/
def defaultMaxAttempts : Nat := 5

/-- `options.reconnectInterval ?? 2000`. -/
def defaultReconnectInterval : Nat := 2000

/-- An inbound `message` event: `JSON.parse(event.data)` either yields a
task snapshot or throws. -/
inductive WSMsg where
  | valid (t : Task)
  | malformed
deriving DecidableEq, Repr

/-- What a handler invocation did besides updating the hook state:
whether it called `ws.close()`, the delay of a `setTimeout(connect, delay)`
it scheduled, and whether an exception escaped the handler uncaught. -/
structure StepOut where
  closedSocket : Bool := false
  scheduledDelay : Option Nat := none
  threw : Bool := false
deriving DecidableEq, Repr

/-- `ws.onopen`: `setStatus('open'); attemptsRef.current = 0;`. -/
def wsOnOpen (s : WSState) : WSState × StepOut :=
  ({ s with status := .open, attempts := 0 }, {})

/-- `ws.onmessage`: `const data = JSON.parse(event.data) as Task;` — a parse
failure throws out of the handler before any state update.  On success:
`setTaskData(data); taskStatusRef.current = data.status;` then
`ws.close()` when the status is terminal. -/
def wsOnMessage (m : WSMsg) (s : WSState) : WSState × StepOut :=
  match m with
  | .malformed => (s, { threw := true })
  | .valid t =>
      ({ s with taskData := some t, taskStatusRef := some t.status },
        { closedSocket := t.status.isTerminal })

/-- `ws.onclose`: `setStatus('closed')`; then, when
`taskStatusRef.current` is neither `'completed'` nor `'failed'` and
`attemptsRef.current < maxAttempts`, compute
`delay = interval * Math.pow(2, attemptsRef.current)`, increment the
counter and `setTimeout(connect, delay)`. -/
def wsOnClose (maxAttempts interval : Nat) (s : WSState) : WSState × StepOut :=
  let s1 := { s with status := ConnStatus.closed }
  if (s.taskStatusRef.map TaskStatus.isTerminal).getD false = false then
    if s.attempts < maxAttempts then
      ({ s1 with attempts := s.attempts + 1 },
        { scheduledDelay := some (interval * 2 ^ s.attempts) })
    else (s1, {})
  else (s1, {})

/-- One event delivered to the socket handlers. -/
inductive WSEvent where
  | openEv
  | msgEv (m : WSMsg)
  | closeEv
deriving DecidableEq, Repr

/-- Dispatch one event to its handler. -/
def wsStep (maxAttempts interval : Nat) (e : WSEvent)
    (s : WSState) : WSState × StepOut :=
  match e with
  | .openEv => wsOnOpen s
  | .msgEv m => wsOnMessage m s
  | .closeEv => wsOnClose maxAttempts interval s

/-- Run a sequence of events, collecting each handler invocation's output. -/
def wsRun (maxAttempts interval : Nat) (es : List WSEvent)
    (s : WSState) : WSState × List StepOut :=
  match es with
  | [] => (s, [])
  | e :: rest =>
      let r1 := wsStep maxAttempts interval e s
      let r2 := wsRun maxAttempts interval rest r1.1
      (r2.1, r1.2 :: r2.2)

/-! ## useRangeSelection (src/frontend/src/hooks/useRangeSelection.ts)

Ids are modelled as naturals; the JS `Set` of selected ids becomes a
`Finset`.  A click carries the two modifier bits the handler reads:
`isMeta = event.metaKey || event.ctrlKey` and `isShift = event.shiftKey`. -/

/-- `RangeSelectionState`: the selected-id set and the anchor. -/
structure SelState where
  selectedIds : Finset Nat
  anchorId : Option Nat
deriving DecidableEq

/-- Initial state: empty selection, no anchor. -/
def initSel : SelState :=
  { selectedIds := ∅, anchorId := none }

/-- JavaScript `Array.prototype.indexOf`: index of the first occurrence,
`-1` when absent. -/
def jsIndexOf (l : List Nat) (a : Nat) : Int :=
  if a ∈ l then (l.indexOf a : Int) else -1

/-- `onItemClick(id, event)` from `useRangeSelection.ts`, as the pure state
update passed to `setState`:

* shift held and an anchor set: resolve both indices; if either is `-1`,
  fall back to the plain-click result; otherwise select exactly the
  entries at positions `min..max` (the loop `for i = start to end:
  add(orderedIds[i])` after `clear()`) and keep the original anchor;
* else, meta held: toggle `id`, leaving the rest of the selection and the
  anchor as they are;
* else: select only `id` and move the anchor to it. -/
def onItemClick (orderedIds : List Nat) (id : Nat) (isMeta isShift : Bool)
    (prev : SelState) : SelState :=
  match isShift, prev.anchorId with
  | true, some anchor =>
      let anchorIndex := jsIndexOf orderedIds anchor
      let targetIndex := jsIndexOf orderedIds id
      if anchorIndex = -1 ∨ targetIndex = -1 then
        { selectedIds := {id}, anchorId := some id }
      else
        let start := (min anchorIndex targetIndex).toNat
        let stop := (max anchorIndex targetIndex).toNat
        { selectedIds := ((orderedIds.take (stop + 1)).drop start).toFinset,
          anchorId := some anchor }
  | _, _ =>
      if isMeta then
        { selectedIds :=
            if id ∈ prev.selectedIds then prev.selectedIds.erase id
            else insert id prev.selectedIds,
          anchorId := prev.anchorId }
      else
        { selectedIds := {id}, anchorId := some id }

/-- `isSelected(id)`. -/
def isSelected (s : SelState) (id : Nat) : Bool :=
  id ∈ s.selectedIds

/-- `clear()`. -/
def clearSelection (_s : SelState) : SelState :=
  { selectedIds := ∅, anchorId := none }

/-! ## Theorems: AutoSaveManager claims -/

/-- The trace of a burst of `save` calls is, per call in order, the local
backup write immediately followed by the (re)scheduling of the debounced
remote write. -/
lemma saveBurst_trace (payloads : List (List TranscriptionLine)) (now : Nat) :
    ∀ s : AutoSaveState,
      (saveBurst payloads now s).2
        = payloads.flatMap (fun p => [SaveOp.localWrite p, SaveOp.schedule p]) := by
  induction payloads with
  | nil => intro s; rfl
  | cons p rest ih =>
      intro s
      simp [saveBurst, save, ih]

/-- After a nonempty burst the debounce timer holds the last payload. -/
lemma saveBurst_pending (payloads : List (List TranscriptionLine))
    (PN : List TranscriptionLine) (now : Nat) :
    ∀ s : AutoSaveState, payloads.getLast? = some PN →
      (saveBurst payloads now s).1.pending = some PN := by
  induction payloads with
  | nil => intro s h; simp at h
  | cons p rest ih =>
      intro s h
      cases rest with
      | nil =>
          simp at h
          subst h
          rfl
      | cons q t =>
          rw [List.getLast?_cons_cons] at h
          simpa [saveBurst] using ih _ h

/-- A burst's trace contains no remote write. -/
lemma saveBurst_no_remote (payloads : List (List TranscriptionLine)) :
    (payloads.flatMap (fun p => [SaveOp.localWrite p, SaveOp.schedule p])).filter
        SaveOp.isRemoteWrite = [] := by
  induction payloads with
  | nil => rfl
  | cons p rest ih => simp [SaveOp.isRemoteWrite, ih]

/-- A burst's trace has exactly one local write per call, in call order. -/
lemma saveBurst_locals (payloads : List (List TranscriptionLine)) :
    (payloads.flatMap (fun p => [SaveOp.localWrite p, SaveOp.schedule p])).filter
        SaveOp.isLocalWrite = payloads.map SaveOp.localWrite := by
  induction payloads with
  | nil => rfl
  | cons p rest ih => simp [SaveOp.isLocalWrite, ih]

/-- C1, counterexample.  At a concrete input whose remote write rejects
(`onSave` rejects with message "boom"), the promise returned by `forceSave`
nevertheless fulfills (propagated rejection `none`): the failure is
recorded in the `error` cell instead of rejecting the caller's await, so
the claim that `forceSave` propagates the rejection is false. -/
theorem forceSave_swallows_rejection_counterexample :
    (forceSave [] (.errObj "boom") 0 initAutoSave).2 = none ∧
    (forceSave [] (.errObj "boom") 0 initAutoSave).1.error = some "boom" := by
  constructor <;> rfl

/-- C1, amended.  `forceSave` cancels the pending debounced write and
performs the remote write immediately; but its promise always fulfills:
on rejection of the remote write the failure is recorded in the `error`
cell (and the backup and `hasUnsavedChanges` are left as they were), on
success the backup is cleared and `lastSaved` set — in neither case is the
rejection propagated to the caller. -/
theorem forceSave_amended (lines : List TranscriptionLine) (m : String)
    (now : Nat) (s : AutoSaveState) :
    ((forceSave lines (.errObj m) now s).1.pending = none ∧
     (forceSave lines (.errObj m) now s).2 = none ∧
     (forceSave lines (.errObj m) now s).1.error = some m ∧
     (forceSave lines (.errObj m) now s).1.slot = s.slot ∧
     (forceSave lines (.errObj m) now s).1.hasUnsavedChanges = s.hasUnsavedChanges) ∧
    ((forceSave lines .ok now s).1.pending = none ∧
     (forceSave lines .ok now s).2 = none ∧
     (forceSave lines .ok now s).1.slot = none ∧
     (forceSave lines .ok now s).1.hasUnsavedChanges = false ∧
     (forceSave lines .ok now s).1.lastSaved = some now) := by
  refine ⟨⟨rfl, rfl, rfl, rfl, rfl⟩, ⟨rfl, rfl, rfl, rfl, rfl⟩⟩

/-- C5.  `N` calls to `save(P1..PN)` inside one debounce window followed by
the timer expiry produce a trace in which each call's local backup write
immediately precedes its (re)scheduling of the remote write, the sole
remote write is the trace's last event and carries exactly `PN`, and there
are exactly `N` local backup writes, one per call in call order. -/
theorem save_debounce_coalescing (payloads : List (List TranscriptionLine))
    (PN : List TranscriptionLine) (outcome : RemoteOutcome) (now : Nat)
    (s : AutoSaveState) (hlast : payloads.getLast? = some PN) :
    (saveWindow payloads outcome now s).2
        = payloads.flatMap (fun p => [SaveOp.localWrite p, SaveOp.schedule p])
            ++ [SaveOp.remoteWrite PN] ∧
    ((saveWindow payloads outcome now s).2.filter SaveOp.isRemoteWrite)
        = [SaveOp.remoteWrite PN] ∧
    ((saveWindow payloads outcome now s).2.filter SaveOp.isLocalWrite)
        = payloads.map SaveOp.localWrite := by
  have hpend := saveBurst_pending payloads PN now s hlast
  have htr := saveBurst_trace payloads now s
  have hwin : (saveWindow payloads outcome now s).2
      = payloads.flatMap (fun p => [SaveOp.localWrite p, SaveOp.schedule p])
          ++ [SaveOp.remoteWrite PN] := by
    simp [saveWindow, flushDebounce, hpend, htr]
  refine ⟨hwin, ?_, ?_⟩
  · rw [hwin, List.filter_append, saveBurst_no_remote]
    rfl
  · rw [hwin, List.filter_append, saveBurst_locals]
    simp [SaveOp.isLocalWrite]

/-- C5 witness: two saves and the flush, at concrete payloads. -/
theorem save_debounce_coalescing_witness :
    ([[({ id := 1, line_number := 1 } : TranscriptionLine)],
      [({ id := 2, line_number := 2 } : TranscriptionLine)]].getLast?
        = some [({ id := 2, line_number := 2 } : TranscriptionLine)]) ∧
    (saveWindow [[({ id := 1, line_number := 1 } : TranscriptionLine)],
        [({ id := 2, line_number := 2 } : TranscriptionLine)]] .ok 7 initAutoSave).2
      = [SaveOp.localWrite [{ id := 1, line_number := 1 }],
         SaveOp.schedule [{ id := 1, line_number := 1 }],
         SaveOp.localWrite [{ id := 2, line_number := 2 }],
         SaveOp.schedule [{ id := 2, line_number := 2 }],
         SaveOp.remoteWrite [{ id := 2, line_number := 2 }]] := by
  refine ⟨rfl, ?_⟩
  have h := save_debounce_coalescing
    [[({ id := 1, line_number := 1 } : TranscriptionLine)],
     [({ id := 2, line_number := 2 } : TranscriptionLine)]]
    [({ id := 2, line_number := 2 } : TranscriptionLine)] .ok 7 initAutoSave rfl
  simpa using h.1

/-- C6.  When the remote write rejects, `saveToServer` records the failure
message in the `error` cell, leaves `hasUnsavedChanges` as it was (so still
true after a `save`), leaves the local backup slot untouched, ends with
`isSaving` false, and schedules nothing (the debounce cell is unchanged);
a debounced write that fires and fails likewise leaves no timer pending —
there is no automatic retry. -/
theorem saveToServer_failure (lines : List TranscriptionLine) (m : String)
    (now : Nat) (s : AutoSaveState) :
    ((saveToServer lines (.errObj m) now s).1.error = some m ∧
     (saveToServer lines (.errObj m) now s).1.hasUnsavedChanges = s.hasUnsavedChanges ∧
     (saveToServer lines (.errObj m) now s).1.slot = s.slot ∧
     (saveToServer lines (.errObj m) now s).1.pending = s.pending ∧
     (saveToServer lines (.errObj m) now s).1.isSaving = false) ∧
    (saveToServer lines .nonErrorThrow now s).1.error = some "Save failed" ∧
    (flushDebounce (.errObj m) now { s with pending := some lines }).1.pending = none := by
  refine ⟨⟨rfl, rfl, rfl, rfl, rfl⟩, rfl, rfl⟩

/-- C9.  Immediately after `save(P1)` the backup reads back as a record
whose payload is `P1`; after a remote write confirmed successful — whether
issued by `forceSave` or by the debounced timer firing — the backup reads
back as null. -/
theorem backup_roundtrip (P1 lines2 P : List TranscriptionLine)
    (now now2 : Nat) (s s2 : AutoSaveState) (hp : s2.pending = some P) :
    getBackup (save P1 now s).1 = some ⟨P1, now⟩ ∧
    (getBackup (save P1 now s).1).map BackupRecord.lines = some P1 ∧
    getBackup (forceSave lines2 .ok now2 s).1 = none ∧
    getBackup (flushDebounce .ok now2 s2).1 = none := by
  refine ⟨rfl, rfl, rfl, ?_⟩
  simp [flushDebounce, hp, saveToServer, getBackup]

/-- C9 witness at concrete inputs. -/
theorem backup_roundtrip_witness :
    (({ initAutoSave with pending := some [] } : AutoSaveState).pending = some []) ∧
    (getBackup (save [] 7 initAutoSave).1 = some ⟨[], 7⟩ ∧
     (getBackup (save [] 7 initAutoSave).1).map BackupRecord.lines = some [] ∧
     getBackup (forceSave [] .ok 8 initAutoSave).1 = none ∧
     getBackup (flushDebounce .ok 8 { initAutoSave with pending := some [] }).1 = none) :=
  ⟨rfl, backup_roundtrip [] [] [] 7 8 initAutoSave
    { initAutoSave with pending := some [] } rfl⟩

/-! ## Theorems: useWebSocket claims -/

/-- `true` when the event is a message carrying a well-formed snapshot. -/
def WSEvent.isValidMsg : WSEvent → Bool
  | .msgEv (.valid _) => true
  | _ => false

/-- Once the side-channel ref holds a terminal status, any run of events
containing no well-formed snapshot leaves the ref unchanged and never
schedules a reconnect. -/
lemma wsRun_terminal_no_reconnect (maxA interval : Nat) :
    ∀ (es : List WSEvent) (s : WSState),
      (s.taskStatusRef.map TaskStatus.isTerminal).getD false = true →
      es.all (fun e => ! e.isValidMsg) = true →
      (wsRun maxA interval es s).1.taskStatusRef = s.taskStatusRef ∧
      ∀ o ∈ (wsRun maxA interval es s).2, o.scheduledDelay = none := by
  intro es
  induction es with
  | nil => intro s hterm _; exact ⟨rfl, by intro o ho; simp [wsRun] at ho⟩
  | cons e rest ih =>
      intro s hterm hall
      rw [List.all_cons, Bool.and_eq_true] at hall
      have hstep : (wsStep maxA interval e s).1.taskStatusRef = s.taskStatusRef ∧
          (wsStep maxA interval e s).2.scheduledDelay = none := by
        cases e with
        | openEv => exact ⟨rfl, rfl⟩
        | msgEv m =>
            cases m with
            | valid t => simp [WSEvent.isValidMsg] at hall
            | malformed => exact ⟨rfl, rfl⟩
        | closeEv =>
            constructor
            · simp [wsStep, wsOnClose, hterm]
            · simp [wsStep, wsOnClose, hterm]
      have ihr := ih (wsStep maxA interval e s).1 (by rw [hstep.1]; exact hterm) hall.2
      refine ⟨by rw [show (wsRun maxA interval (e :: rest) s).1
          = (wsRun maxA interval rest (wsStep maxA interval e s).1).1 from rfl,
          ihr.1, hstep.1], ?_⟩
      intro o ho
      rw [show (wsRun maxA interval (e :: rest) s).2
          = (wsStep maxA interval e s).2 :: (wsRun maxA interval rest
              (wsStep maxA interval e s).1).2 from rfl] at ho
      rcases List.mem_cons.mp ho with h | h
      · rw [h]; exact hstep.2
      · exact ihr.2 o h

/-- C2, counterexample.  From a fresh connection, deliver a `completed`
snapshot, then a later `running` snapshot for the same task id, then a
close.  The observed task state ends at the *later* snapshot, not the
terminal one, and the close schedules a reconnect (delay 2000 ms): the
first terminal snapshot is not absorbing in the code. -/
theorem terminal_not_absorbing_counterexample :
    (wsRun 5 2000
        [.msgEv (.valid { task_id := "t", type := "ocr", status := .completed }),
         .msgEv (.valid { task_id := "t", type := "ocr", status := .running }),
         .closeEv] initWS).1.taskData
      = some { task_id := "t", type := "ocr", status := .running } ∧
    ((wsRun 5 2000
        [.msgEv (.valid { task_id := "t", type := "ocr", status := .completed }),
         .msgEv (.valid { task_id := "t", type := "ocr", status := .running }),
         .closeEv] initWS).2.map (fun o => o.scheduledDelay))
      = [none, none, some 2000] := by
  constructor <;> rfl

/-- C2, amended.  Every well-formed inbound snapshot overwrites the
observed task state (last-writer-wins, even after a terminal snapshot);
processing a terminal snapshot closes the socket; and as long as no later
well-formed snapshot arrives, every subsequent handler invocation — in
particular every close — schedules no reconnection, because the reconnect
decision reads the latest recorded status. -/
theorem terminal_absorbing_amended (maxA interval : Nat) (t : Task)
    (s : WSState) (es : List WSEvent)
    (hterm : t.status.isTerminal = true)
    (hes : es.all (fun e => ! e.isValidMsg) = true) :
    (wsStep maxA interval (.msgEv (.valid t)) s).2.closedSocket = true ∧
    (wsStep maxA interval (.msgEv (.valid t)) s).1.taskData = some t ∧
    ∀ o ∈ (wsRun maxA interval es
        (wsStep maxA interval (.msgEv (.valid t)) s).1).2,
      o.scheduledDelay = none := by
  refine ⟨by simp [wsStep, wsOnMessage, hterm], rfl, ?_⟩
  exact (wsRun_terminal_no_reconnect maxA interval es
    (wsStep maxA interval (.msgEv (.valid t)) s).1
    (by simp [wsStep, wsOnMessage, hterm]) hes).2

/-- C2 witness: a completed snapshot followed by a malformed message and
two closes schedules nothing. -/
theorem terminal_absorbing_amended_witness :
    ((TaskStatus.completed).isTerminal = true ∧
     ([WSEvent.closeEv, .msgEv .malformed, .closeEv].all
        (fun e => ! e.isValidMsg) = true)) ∧
    ((wsStep 5 2000 (.msgEv (.valid { task_id := "t", type := "ocr", status := .completed })) initWS).2.closedSocket = true ∧
     (wsStep 5 2000 (.msgEv (.valid { task_id := "t", type := "ocr", status := .completed })) initWS).1.taskData
        = some { task_id := "t", type := "ocr", status := .completed } ∧
     ∀ o ∈ (wsRun 5 2000 [WSEvent.closeEv, .msgEv .malformed, .closeEv]
        (wsStep 5 2000 (.msgEv (.valid { task_id := "t", type := "ocr", status := .completed })) initWS).1).2,
       o.scheduledDelay = none) :=
  ⟨⟨rfl, rfl⟩, terminal_absorbing_amended 5 2000
    { task_id := "t", type := "ocr", status := .completed } initWS
    [WSEvent.closeEv, .msgEv .malformed, .closeEv] rfl rfl⟩

/-- C3, counterexample.  A malformed payload makes `JSON.parse` throw, and
nothing in the `onmessage` handler catches it: the exception escapes the
handler uncaught, contradicting the claim that no uncaught exception is
thrown. -/
theorem malformed_message_throws_counterexample :
    (wsOnMessage .malformed initWS).2.threw = true := rfl

/-- C3, amended.  A malformed inbound payload aborts the handler before
any state update: the connection status cell, the stored task data and the
side-channel status ref are all unchanged, the socket is not closed and no
reconnect is scheduled — only that one message is lost — but the parse
exception does escape the `onmessage` handler uncaught. -/
theorem malformed_message_discarded (s : WSState) :
    wsOnMessage .malformed s
      = (s, { closedSocket := false, scheduledDelay := none, threw := true }) := rfl

/-- Consecutive closes while the last known status is non-terminal:
starting from counter value `a`, `j` closes (with `a + j ≤ maxAttempts`)
schedule exactly the delays `interval * 2^a, …, interval * 2^(a+j-1)`. -/
lemma wsRun_close_delays (maxA interval : Nat) :
    ∀ (j a : Nat) (s : WSState),
      (s.taskStatusRef.map TaskStatus.isTerminal).getD false = false →
      s.attempts = a → a + j ≤ maxA →
      ((wsRun maxA interval (List.replicate j .closeEv) s).2.map
          (fun o => o.scheduledDelay))
        = (List.range j).map (fun i => some (interval * 2 ^ (a + i))) := by
  intro j
  induction j with
  | zero => intro a s _ _ _; rfl
  | succ j ih =>
      intro a s hnt ha hle
      have halt : a < maxA := by omega
      have hstep : wsStep maxA interval .closeEv s
          = ({ s with status := ConnStatus.closed, attempts := a + 1 },
             { scheduledDelay := some (interval * 2 ^ a) }) := by
        simp [wsStep, wsOnClose, hnt, ha, halt]
      have ihr := ih (a + 1)
        { s with status := ConnStatus.closed, attempts := a + 1 }
        (by simpa using hnt) rfl (by omega)
      rw [List.replicate_succ,
        show (wsRun maxA interval (.closeEv :: List.replicate j .closeEv) s).2
          = (wsStep maxA interval .closeEv s).2
              :: (wsRun maxA interval (List.replicate j .closeEv)
                  (wsStep maxA interval .closeEv s).1).2 from rfl,
        hstep]
      rw [List.map_cons, ihr, List.range_succ_eq_map, List.map_cons,
        List.map_map, Nat.add_zero,
        show ((fun i => some (interval * 2 ^ (a + i))) ∘ Nat.succ)
            = (fun i => some (interval * 2 ^ (a + 1 + i))) from
          funext fun i => by
            rw [Function.comp_apply, show a + Nat.succ i = a + 1 + i by omega]]
      rfl

/-- C4.  With the last known status non-terminal and the counter starting
at 0, `k + 1` consecutive closes (no intervening open) schedule exactly the
delays `interval * 2^0 … interval * 2^k` — so the delay before reconnect
attempt `k + 1` is `baseIntervalMs * 2^k`; a close finding the counter at
`maxAttempts` schedules nothing; a successful open resets the counter to 0;
and the defaults are 5 attempts and 2000 ms. -/
theorem backoff_schedule (maxA interval k : Nat) (s : WSState)
    (hnt : (s.taskStatusRef.map TaskStatus.isTerminal).getD false = false)
    (h0 : s.attempts = 0) (hk : k < maxA) :
    ((wsRun maxA interval (List.replicate (k + 1) .closeEv) s).2.map
        (fun o => o.scheduledDelay))
      = (List.range (k + 1)).map (fun i => some (interval * 2 ^ i)) ∧
    (∀ s2 : WSState, s2.attempts = maxA →
      (wsOnClose maxA interval s2).2.scheduledDelay = none) ∧
    (wsOnOpen s).1.attempts = 0 ∧
    defaultMaxAttempts = 5 ∧ defaultReconnectInterval = 2000 := by
  refine ⟨?_, ?_, rfl, rfl, rfl⟩
  · have h := wsRun_close_delays maxA interval (k + 1) 0 s hnt h0 (by omega)
    simpa using h
  · intro s2 h2
    simp [wsOnClose, h2]

/-- C4 witness: three consecutive closes from a fresh state with defaults
schedule 2000, 4000, 8000 ms. -/
theorem backoff_schedule_witness :
    ((initWS.taskStatusRef.map TaskStatus.isTerminal).getD false = false ∧
     initWS.attempts = 0 ∧ 2 < 5) ∧
    ((wsRun 5 2000 (List.replicate 3 .closeEv) initWS).2.map
        (fun o => o.scheduledDelay)
      = (List.range 3).map (fun i => some (2000 * 2 ^ i)) ∧
     (∀ s2 : WSState, s2.attempts = 5 →
       (wsOnClose 5 2000 s2).2.scheduledDelay = none) ∧
     (wsOnOpen initWS).1.attempts = 0 ∧
     defaultMaxAttempts = 5 ∧ defaultReconnectInterval = 2000) :=
  ⟨⟨rfl, rfl, by omega⟩,
    backoff_schedule 5 2000 2 initWS rfl rfl (by omega)⟩

/-! ## Theorems: useRangeSelection claims -/

/-- A member's `jsIndexOf` is its (cast) first-occurrence index, never -1. -/
lemma jsIndexOf_of_mem (l : List Nat) (a : Nat) (h : a ∈ l) :
    jsIndexOf l a = (l.indexOf a : Int) ∧ jsIndexOf l a ≠ -1 := by
  constructor
  · simp [jsIndexOf, h]
  · simp [jsIndexOf, h]

/-- Membership in the slice `positions start..stop` of a list is exactly
having an occurrence at some position in that span. -/
lemma mem_take_drop_iff (l : List Nat) (start stop y : Nat) :
    y ∈ (l.take (stop + 1)).drop start
      ↔ ∃ p, start ≤ p ∧ p ≤ stop ∧ l[p]? = some y := by
  rw [List.mem_iff_getElem?]
  constructor
  · rintro ⟨j, hj⟩
    rw [List.getElem?_drop, List.getElem?_take] at hj
    by_cases hlt : start + j < stop + 1
    · rw [if_pos hlt] at hj
      exact ⟨start + j, Nat.le_add_right _ _, by omega, hj⟩
    · rw [if_neg hlt] at hj
      exact absurd hj (by simp)
  · rintro ⟨p, hsp, hps, hget⟩
    refine ⟨p - start, ?_⟩
    rw [List.getElem?_drop, List.getElem?_take,
      if_pos (by omega : start + (p - start) < stop + 1),
      show start + (p - start) = p by omega]
    exact hget

/-- The shift branch of `onItemClick` when both ids resolve: the selection
becomes the `min..max` slice of the ordered sequence and the anchor stays. -/
lemma onItemClick_shift_resolved (l : List Nat) (a id : Nat) (isMeta : Bool)
    (prev : SelState) (ha : prev.anchorId = some a)
    (h1 : a ∈ l) (h2 : id ∈ l) :
    onItemClick l id isMeta true prev
      = { selectedIds := ((l.take (max (l.indexOf a) (l.indexOf id) + 1)).drop
            (min (l.indexOf a) (l.indexOf id))).toFinset,
          anchorId := some a } := by
  obtain ⟨e1, n1⟩ := jsIndexOf_of_mem l a h1
  obtain ⟨e2, n2⟩ := jsIndexOf_of_mem l id h2
  unfold onItemClick
  rw [ha]
  simp only [e1, e2]
  rw [if_neg (by push_neg; exact ⟨by omega, by omega⟩)]
  rw [← Nat.cast_min, ← Nat.cast_max, Int.toNat_natCast, Int.toNat_natCast]

/-- C7.  With the anchor set and both the anchor id and the clicked id
present in the ordered sequence, a shift-click selects exactly the ids
occurring at positions between the two resolved indices inclusive
(`min..max`, so the span is the same with the roles of the two ids
swapped), and the anchor stays at the original anchor id. -/
theorem range_click_selects_span (l : List Nat) (a id : Nat) (isMeta isMeta2 : Bool)
    (prev prev2 : SelState) (ha : prev.anchorId = some a)
    (ha2 : prev2.anchorId = some id) (h1 : a ∈ l) (h2 : id ∈ l) :
    (onItemClick l id isMeta true prev).anchorId = some a ∧
    (∀ y, y ∈ (onItemClick l id isMeta true prev).selectedIds
      ↔ ∃ p, min (l.indexOf a) (l.indexOf id) ≤ p ∧
          p ≤ max (l.indexOf a) (l.indexOf id) ∧ l[p]? = some y) ∧
    (onItemClick l id isMeta true prev).selectedIds
      = (onItemClick l a isMeta2 true prev2).selectedIds := by
  rw [onItemClick_shift_resolved l a id isMeta prev ha h1 h2,
    onItemClick_shift_resolved l id a isMeta2 prev2 ha2 h2 h1]
  refine ⟨rfl, ?_, ?_⟩
  · intro y
    rw [List.mem_toFinset]
    exact mem_take_drop_iff l _ _ y
  · rw [Nat.min_comm (l.indexOf id) (l.indexOf a),
      Nat.max_comm (l.indexOf id) (l.indexOf a)]

/-- C7 witness: on `[10,20,30,40,50]` anchored at 20, shift-clicking 40
spans `{20,30,40}` and keeps the anchor; anchoring at 40 and shift-clicking
20 yields the same span. -/
theorem range_click_selects_span_witness :
    ((({ selectedIds := {20}, anchorId := some 20 } : SelState).anchorId = some 20) ∧
     (({ selectedIds := {40}, anchorId := some 40 } : SelState).anchorId = some 40) ∧
     20 ∈ [10,20,30,40,50] ∧ 40 ∈ [10,20,30,40,50]) ∧
    ((onItemClick [10,20,30,40,50] 40 false true
        { selectedIds := {20}, anchorId := some 20 }).anchorId = some 20 ∧
     (∀ y, y ∈ (onItemClick [10,20,30,40,50] 40 false true
          { selectedIds := {20}, anchorId := some 20 }).selectedIds
        ↔ ∃ p, min ([10,20,30,40,50].indexOf 20) ([10,20,30,40,50].indexOf 40) ≤ p ∧
            p ≤ max ([10,20,30,40,50].indexOf 20) ([10,20,30,40,50].indexOf 40) ∧
            [10,20,30,40,50][p]? = some y) ∧
     (onItemClick [10,20,30,40,50] 40 false true
        { selectedIds := {20}, anchorId := some 20 }).selectedIds
       = (onItemClick [10,20,30,40,50] 20 false true
          { selectedIds := {40}, anchorId := some 40 }).selectedIds) :=
  ⟨⟨rfl, rfl, by decide, by decide⟩,
    range_click_selects_span [10,20,30,40,50] 20 40 false false
      { selectedIds := {20}, anchorId := some 20 }
      { selectedIds := {40}, anchorId := some 40 }
      rfl rfl (by decide) (by decide)⟩

/-- C8, counterexample.  Shift-click with the anchor unset while the toggle
modifier is also held does not degrade to a plain click: with ordered ids
`[1,2]`, previous selection `{2}` and no anchor, clicking 1 with both
modifiers yields selection `{2,1}` and no anchor, not selection `{1}` with
anchor 1 as the claim requires. -/
theorem shift_no_anchor_with_meta_counterexample :
    (onItemClick [1,2] 1 true true
      { selectedIds := {2}, anchorId := none }).selectedIds = {2,1} ∧
    (onItemClick [1,2] 1 true true
      { selectedIds := {2}, anchorId := none }).anchorId = none ∧
    ¬ ((onItemClick [1,2] 1 true true
        { selectedIds := {2}, anchorId := none }).selectedIds = {1} ∧
       (onItemClick [1,2] 1 true true
        { selectedIds := {2}, anchorId := none }).anchorId = some 1) := by
  refine ⟨by decide, by decide, ?_⟩
  rintro ⟨-, h⟩
  exact absurd h (by decide)

/-- C8, amended.  A shift-click whose range cannot be computed degrades as
follows: with the anchor set but either id absent from the ordered
sequence, it is a plain click (selection `{id}`, anchor `id`) regardless
of the toggle modifier; with the anchor unset and the toggle modifier not
held, it is likewise a plain click; but with the anchor unset and the
toggle modifier held, the toggle branch runs instead (membership of `id`
flipped, anchor unchanged).  No case throws. -/
theorem shift_degrades_amended (l : List Nat) (id a : Nat) (isMeta : Bool)
    (prev : SelState) (ha : prev.anchorId = some a) (habs : a ∉ l ∨ id ∉ l)
    (prev2 : SelState) (hnone : prev2.anchorId = none) :
    onItemClick l id isMeta true prev
      = { selectedIds := {id}, anchorId := some id } ∧
    onItemClick l id false true prev2
      = { selectedIds := {id}, anchorId := some id } ∧
    onItemClick l id true true prev2
      = { selectedIds :=
            if id ∈ prev2.selectedIds then prev2.selectedIds.erase id
            else insert id prev2.selectedIds,
          anchorId := prev2.anchorId } := by
  refine ⟨?_, ?_, ?_⟩
  · have hneg : jsIndexOf l a = -1 ∨ jsIndexOf l id = -1 := by
      rcases habs with h | h
      · exact Or.inl (by simp [jsIndexOf, h])
      · exact Or.inr (by simp [jsIndexOf, h])
    unfold onItemClick
    rw [ha]
    simp only [if_pos hneg]
  · unfold onItemClick
    rw [hnone]
    rfl
  · unfold onItemClick
    rw [hnone]
    rfl

/-- C8 witness: anchor 3 absent from `[1,2]` degrades shift+toggle-click on
1 to a plain click; with no anchor, shift-click on 1 is a plain click. -/
theorem shift_degrades_amended_witness :
    ((({ selectedIds := {2}, anchorId := some 3 } : SelState).anchorId = some 3) ∧
     (3 ∉ [1,2] ∨ 1 ∉ [1,2]) ∧
     (({ selectedIds := {2}, anchorId := none } : SelState).anchorId = none)) ∧
    (onItemClick [1,2] 1 true true { selectedIds := {2}, anchorId := some 3 }
        = { selectedIds := {1}, anchorId := some 1 } ∧
     onItemClick [1,2] 1 false true { selectedIds := {2}, anchorId := none }
        = { selectedIds := {1}, anchorId := some 1 } ∧
     onItemClick [1,2] 1 true true { selectedIds := {2}, anchorId := none }
        = { selectedIds :=
              if 1 ∈ ({2} : Finset Nat) then ({2} : Finset Nat).erase 1
              else insert 1 ({2} : Finset Nat),
            anchorId := (none : Option Nat) }) :=
  ⟨⟨rfl, Or.inl (by decide), rfl⟩,
    shift_degrades_amended [1,2] 1 3 true
      { selectedIds := {2}, anchorId := some 3 } rfl (Or.inl (by decide))
      { selectedIds := {2}, anchorId := none } rfl⟩

/-- C10.  A toggle-click (meta, no shift) flips the clicked id's membership,
leaves every other id's membership and the anchor unchanged, and applied
twice in immediate succession restores the selection set exactly — even
when the toggled id is the anchor item, whose anchor role is retained. -/
theorem toggle_click_involution (l : List Nat) (x : Nat) (prev : SelState) :
    ((x ∈ (onItemClick l x true false prev).selectedIds ↔ x ∉ prev.selectedIds) ∧
     (∀ y, y ≠ x →
       (y ∈ (onItemClick l x true false prev).selectedIds ↔ y ∈ prev.selectedIds)) ∧
     (onItemClick l x true false prev).anchorId = prev.anchorId) ∧
    (onItemClick l x true false (onItemClick l x true false prev)).selectedIds
        = prev.selectedIds ∧
    (onItemClick l x true false (onItemClick l x true false prev)).anchorId
        = prev.anchorId := by
  by_cases hx : x ∈ prev.selectedIds
  · refine ⟨⟨?_, ?_, rfl⟩, ?_, rfl⟩
    · simp [onItemClick, hx]
    · intro y hy
      simp [onItemClick, hx, Finset.mem_erase, hy]
    · have h1 : (onItemClick l x true false prev).selectedIds
          = prev.selectedIds.erase x := by simp [onItemClick, hx]
      simp [onItemClick, hx, Finset.not_mem_erase, Finset.insert_erase hx]
  · refine ⟨⟨?_, ?_, rfl⟩, ?_, rfl⟩
    · simp [onItemClick, hx]
    · intro y hy
      simp [onItemClick, hx, Finset.mem_insert, hy]
    · have h1 : (onItemClick l x true false prev).selectedIds
          = insert x prev.selectedIds := by simp [onItemClick, hx]
      simp [onItemClick, hx, Finset.mem_insert_self, Finset.erase_insert hx]

/-- C10 witness: toggling 2 on selection `{2,5}` (anchor 2) removes it while
the anchor stays, and toggling again restores `{2,5}`. -/
theorem toggle_click_involution_witness :
    (2 ∈ (onItemClick [1,2,5] 2 true false
        { selectedIds := {2,5}, anchorId := some 2 }).selectedIds
      ↔ 2 ∉ ({2,5} : Finset Nat)) ∧
    (onItemClick [1,2,5] 2 true false
        { selectedIds := {2,5}, anchorId := some 2 }).anchorId = some 2 ∧
    (onItemClick [1,2,5] 2 true false (onItemClick [1,2,5] 2 true false
        { selectedIds := {2,5}, anchorId := some 2 })).selectedIds
      = ({2,5} : Finset Nat) :=
  ⟨(toggle_click_involution [1,2,5] 2
      { selectedIds := {2,5}, anchorId := some 2 }).1.1,
   (toggle_click_involution [1,2,5] 2
      { selectedIds := {2,5}, anchorId := some 2 }).1.2.2,
   (toggle_click_involution [1,2,5] 2
      { selectedIds := {2,5}, anchorId := some 2 }).2.1⟩

end MaatikShemua
